import Mathlib

/-!
# JNI adapters of android-libs

Shallow embedding of

* `bundle-network/src/storage/cpp/pipe.cpp` (namespace `Pipe`), and
* `drawables/src/main/jni/reflection.cpp` (namespace `Reflection`).

Both files are thin call-throughs into the Java runtime (through `JNIEnv`) and
the kernel (`pipe(2)`).  Neither of the two is code of the repository, so their
behaviour is a parameter: a `Host` answers every lookup, runs the bodies of the
Java methods and constructors, and decides what `pipe(2)` returns.  The state
the adapters can observe or change is explicit: the managed heap, the
pending-exception flag of the calling thread, and the history of every call the
adapters make into the runtime or the kernel.

Conventions.

* A `NULL` reference or identifier is `none`.
* A reference is identified with the object it refers to; `NewGlobalRef` and
  `DeleteLocalRef` only appear in the history.
* The receiver of a field access or of a method call is an object (`Obj`):
  the JNI leaves a `NULL` receiver undefined.
* A member lookup on a `NULL` class is a failed lookup.
-/

namespace AndroidLibs

/-! ## Types and constants of `jni.h` -/

abbrev jint := Int
abbrev jboolean := Nat

def JNI_FALSE : jboolean := 0
def JNI_TRUE : jboolean := 1
def JNI_OK : jint := 0
def JNI_ERR : jint := -1
def JNI_VERSION_1_6 : jint := 0x00010006

/-- Identity of an object of the managed heap. -/
abbrev Obj := Nat
abbrev jobject := Option Obj
abbrev jclass := Option Obj
abbrev jfieldID := Option Nat
abbrev jmethodID := Option Nat

/-- One call made by an adapter into the Java runtime or into the kernel. -/
inductive Event where
  | FindClass (name : String)
  | NewGlobalRef (ref : jobject)
  | DeleteLocalRef (ref : jobject)
  | GetFieldID (clazz : jclass) (name sig : String)
  | GetMethodID (clazz : jclass) (name sig : String)
  | ExceptionCheck
  | ExceptionClear
  | SetIntField (obj : Obj) (field : Nat) (value : jint)
  | GetObjectField (obj : Obj) (field : Nat)
  | CallVoidMethod (obj : Obj) (method : Nat)
  | NewObject (clazz : jclass) (method : Nat) (args : List jobject)
  | pipe
  deriving DecidableEq, Repr

/-- The managed heap: objects `0 .. next - 1` are allocated, `cls` is the class
of an object, `ints` and `refs` are the int-valued and reference-valued fields,
indexed by object and field identifier. -/
structure Heap where
  next : Obj
  cls : Obj → jclass
  ints : Obj → Nat → jint
  refs : Obj → Nat → jobject

/-- What a native function sees of its process through `JNIEnv*`: the heap,
whether an exception is pending in the calling thread, and the history of the
calls made so far. -/
structure JNIEnv where
  heap : Heap
  pending : Bool
  log : List Event

/-- Everything outside the repository: the Java runtime and the kernel.

* `GetEnv v` is the status `JavaVM::GetEnv` returns for version `v`;
* `FindClass`, `GetFieldID`, `GetMethodID` are the results of the lookups,
  `none` when the lookup fails;
* `canAllocate h c` tells whether an instance of class `c` can be allocated
  in heap `h`;
* `invoke h o m args` runs the body of method (or constructor) `m` on receiver
  `o`: the heap it leaves, and whether it threw;
* `pipe log` is what `pipe(2)` does after the history `log`: its return value
  and the two descriptors it stores in the array. -/
structure Host where
  GetEnv : jint → jint
  FindClass : String → jclass
  GetFieldID : Obj → String → String → jfieldID
  GetMethodID : Obj → String → String → jmethodID
  canAllocate : Heap → Obj → Bool
  invoke : Heap → Obj → Nat → List jobject → Heap × Bool
  pipe : List Event → jint × jint × jint

/-! ## The JNI functions the adapters call -/

def JNIEnv.record (env : JNIEnv) (e : Event) : JNIEnv :=
  { env with log := env.log ++ [e] }

/-- A JNI function that fails leaves an exception pending. -/
def JNIEnv.throw (env : JNIEnv) : JNIEnv :=
  { env with pending := true }

def JNIEnv.FindClass (vm : Host) (env : JNIEnv) (name : String) : jclass × JNIEnv :=
  match vm.FindClass name with
  | some c => (some c, env.record (.FindClass name))
  | none => (none, (env.record (.FindClass name)).throw)

def JNIEnv.GetFieldID (vm : Host) (env : JNIEnv) (clazz : jclass) (name sig : String) :
    jfieldID × JNIEnv :=
  match clazz.bind (fun c => vm.GetFieldID c name sig) with
  | some f => (some f, env.record (.GetFieldID clazz name sig))
  | none => (none, (env.record (.GetFieldID clazz name sig)).throw)

def JNIEnv.GetMethodID (vm : Host) (env : JNIEnv) (clazz : jclass) (name sig : String) :
    jmethodID × JNIEnv :=
  match clazz.bind (fun c => vm.GetMethodID c name sig) with
  | some m => (some m, env.record (.GetMethodID clazz name sig))
  | none => (none, (env.record (.GetMethodID clazz name sig)).throw)

def JNIEnv.ExceptionCheck (env : JNIEnv) : Bool × JNIEnv :=
  (env.pending, env.record .ExceptionCheck)

def JNIEnv.ExceptionClear (env : JNIEnv) : JNIEnv :=
  { env.record .ExceptionClear with pending := false }

def JNIEnv.NewGlobalRef (env : JNIEnv) (ref : jobject) : jobject × JNIEnv :=
  (ref, env.record (.NewGlobalRef ref))

def JNIEnv.DeleteLocalRef (env : JNIEnv) (ref : jobject) : JNIEnv :=
  env.record (.DeleteLocalRef ref)

def Heap.setInt (h : Heap) (obj : Obj) (field : Nat) (value : jint) : Heap :=
  { h with ints := fun o f => if o = obj ∧ f = field then value else h.ints o f }

def JNIEnv.SetIntField (env : JNIEnv) (obj : Obj) (field : Nat) (value : jint) : JNIEnv :=
  { env.record (.SetIntField obj field value) with heap := env.heap.setInt obj field value }

def JNIEnv.GetObjectField (env : JNIEnv) (obj : Obj) (field : Nat) : jobject × JNIEnv :=
  (env.heap.refs obj field, env.record (.GetObjectField obj field))

def JNIEnv.CallVoidMethod (vm : Host) (env : JNIEnv) (obj : Obj) (method : Nat) : JNIEnv :=
  let r := vm.invoke env.heap obj method []
  { env.record (.CallVoidMethod obj method) with
    heap := r.1
    pending := env.pending || r.2 }

/-- Allocation of a fresh instance of class `c`: the object `h.next`. -/
def Heap.allocate (h : Heap) (c : Obj) : Heap :=
  { h with next := h.next + 1, cls := fun o => if o = h.next then some c else h.cls o }

/-- Object `o` is allocated in heap `h`. -/
def Heap.allocated (h : Heap) (o : Obj) : Prop := o < h.next

instance (h : Heap) (o : Obj) : Decidable (h.allocated o) := Nat.decLt o h.next

/-- The JNI function `NewObject` allocates a fresh instance of `clazz` and runs the constructor
`method` on it with `args`.  It returns `NULL` with an exception pending when
the instance cannot be allocated or the constructor throws. -/
def JNIEnv.NewObject (vm : Host) (env : JNIEnv) (clazz : jclass) (method : Nat)
    (args : List jobject) : jobject × JNIEnv :=
  let env1 := env.record (.NewObject clazz method args)
  match clazz with
  | none => (none, env1.throw)
  | some c =>
    if vm.canAllocate env.heap c then
      let r := vm.invoke (env.heap.allocate c) env.heap.next method args
      if r.2 then (none, { env1 with heap := r.1, pending := true })
      else (some env.heap.next, { env1 with heap := r.1 })
    else (none, env1.throw)

/-- The call `pipe(fds)` of `unistd.h`: return value, `fds[0]`, `fds[1]`. -/
def pipe (vm : Host) (env : JNIEnv) : jint × jint × jint × JNIEnv :=
  let r := vm.pipe env.log
  (r.1, r.2.1, r.2.2, env.record .pipe)

/-! ## `pipe.cpp` -/

namespace Pipe

/-- The three statics of `pipe.cpp`. -/
structure Globals where
  fieldDescriptor : jfieldID
  constructorPfd : jmethodID
  pfdClass : jclass

/-- Statics are zero-initialised. -/
def Globals.init : Globals := ⟨none, none, none⟩

def JNI_OnLoad (vm : Host) (g : Globals) (env : JNIEnv) : jint × Globals × JNIEnv :=
  if vm.GetEnv JNI_VERSION_1_6 ≠ JNI_OK then (JNI_ERR, g, env)
  else
    let c1 := env.FindClass vm "java/io/FileDescriptor"
    let f := c1.2.GetFieldID vm c1.1 "descriptor" "I"
    let g1 := { g with fieldDescriptor := f.1 }
    let x1 := f.2.ExceptionCheck
    let s1 : Globals × JNIEnv :=
      if x1.1 then ({ g1 with fieldDescriptor := none }, x1.2.ExceptionClear) else (g1, x1.2)
    let env2 := s1.2.DeleteLocalRef c1.1
    let c2 := env2.FindClass vm "android/os/ParcelFileDescriptor"
    let r := c2.2.NewGlobalRef c2.1
    let g2 := { s1.1 with pfdClass := r.1 }
    let m := r.2.GetMethodID vm g2.pfdClass "<init>" "(Ljava/io/FileDescriptor;)V"
    let g3 := { g2 with constructorPfd := m.1 }
    let x2 := m.2.ExceptionCheck
    let s2 : Globals × JNIEnv :=
      if x2.1 then ({ g3 with constructorPfd := none }, x2.2.ExceptionClear) else (g3, x2.2)
    let env3 := s2.2.DeleteLocalRef c2.1
    (JNI_VERSION_1_6, s2.1, env3)

def Java_network_NetworkUtils_createPipe (vm : Host) (g : Globals) (env : JNIEnv)
    (read write : Obj) : jboolean × JNIEnv :=
  match g.fieldDescriptor with
  | none => (JNI_FALSE, env)
  | some fid =>
    let p := pipe vm env
    if p.1 < 0 then (JNI_FALSE, p.2.2.2)
    else
      let env1 := p.2.2.2.SetIntField read fid p.2.1
      let env2 := env1.SetIntField write fid p.2.2.1
      (JNI_TRUE, env2)

def Java_network_NetworkUtils_createPfd (vm : Host) (g : Globals) (env : JNIEnv)
    (fd : jobject) : jobject × JNIEnv :=
  match g.constructorPfd with
  | none => (none, env)
  | some ctor => env.NewObject vm g.pfdClass ctor [fd]

end Pipe

/-! ## `reflection.cpp` -/

namespace Reflection

/-- The two statics of `reflection.cpp`. -/
structure Globals where
  updateMethodId : jmethodID
  matrixFieldId : jfieldID

/-- Statics are zero-initialised. -/
def Globals.init : Globals := ⟨none, none⟩

def JNI_OnLoad (vm : Host) (g : Globals) (env : JNIEnv) : jint × Globals × JNIEnv :=
  if vm.GetEnv JNI_VERSION_1_6 ≠ JNI_OK then (JNI_ERR, g, env)
  else
    let c := env.FindClass vm "android/graphics/ColorMatrixColorFilter"
    let m := c.2.GetMethodID vm c.1 "update" "()V"
    let g1 := { g with updateMethodId := m.1 }
    let x1 := m.2.ExceptionCheck
    let s1 : Globals × JNIEnv :=
      if x1.1 then ({ g1 with updateMethodId := none }, x1.2.ExceptionClear) else (g1, x1.2)
    let f := s1.2.GetFieldID vm c.1 "mMatrix" "Landroid/graphics/ColorMatrix;"
    let g2 := { s1.1 with matrixFieldId := f.1 }
    let x2 := f.2.ExceptionCheck
    let s2 : Globals × JNIEnv :=
      if x2.1 then ({ g2 with matrixFieldId := none }, x2.2.ExceptionClear) else (g2, x2.2)
    let env3 := s2.2.DeleteLocalRef c.1
    (JNI_VERSION_1_6, s2.1, env3)

def Java_drawables_BitmapDrawable_update (vm : Host) (g : Globals) (env : JNIEnv)
    (object : Obj) : jboolean × JNIEnv :=
  match g.updateMethodId with
  | none => (JNI_FALSE, env)
  | some mid => (JNI_TRUE, env.CallVoidMethod vm object mid)

def Java_drawables_BitmapDrawable_getMatrix (g : Globals) (env : JNIEnv)
    (object : Obj) : jobject × JNIEnv :=
  match g.matrixFieldId with
  | none => (none, env)
  | some fid => env.GetObjectField object fid

end Reflection

/-! ## A process that has both libraries -/

/-- The statics of the two libraries and the runtime state they share. -/
structure Process where
  pipe : Pipe.Globals
  reflection : Reflection.Globals
  env : JNIEnv

/-- A call of one of the four exported entry points. -/
inductive Call where
  | createPipe (read write : Obj)
  | createPfd (fd : jobject)
  | update (object : Obj)
  | getMatrix (object : Obj)

/-- What an entry point returns: a `jboolean` or a reference. -/
inductive Ret where
  | bool (b : jboolean)
  | ref (o : jobject)
  deriving DecidableEq, Repr

def Process.call (vm : Host) (p : Process) : Call → Ret × Process
  | .createPipe read write =>
    let r := Pipe.Java_network_NetworkUtils_createPipe vm p.pipe p.env read write
    (.bool r.1, { p with env := r.2 })
  | .createPfd fd =>
    let r := Pipe.Java_network_NetworkUtils_createPfd vm p.pipe p.env fd
    (.ref r.1, { p with env := r.2 })
  | .update object =>
    let r := Reflection.Java_drawables_BitmapDrawable_update vm p.reflection p.env object
    (.bool r.1, { p with env := r.2 })
  | .getMatrix object =>
    let r := Reflection.Java_drawables_BitmapDrawable_getMatrix p.reflection p.env object
    (.ref r.1, { p with env := r.2 })

/-- The failure sentinel of an entry point. -/
def Call.sentinel : Call → Ret
  | .createPipe _ _ => .bool JNI_FALSE
  | .createPfd _ => .ref none
  | .update _ => .bool JNI_FALSE
  | .getMatrix _ => .ref none

/-- A sequence of entry-point calls, one after the other. -/
def Process.run (vm : Host) (p : Process) : List Call → Process
  | [] => p
  | c :: cs => Process.run vm (p.call vm c).2 cs

/-- Loading both libraries into a process whose runtime state is `env`: the
statics start zeroed and each library has its `JNI_OnLoad` run. -/
def Process.load (vm : Host) (env : JNIEnv) : Process :=
  let a := Pipe.JNI_OnLoad vm Pipe.Globals.init env
  let b := Reflection.JNI_OnLoad vm Reflection.Globals.init a.2.2
  { pipe := a.2.1, reflection := b.2.1, env := b.2.2 }

/-- The member lookups of the two `JNI_OnLoad`, as the host answers them. -/
def Host.descriptorField (vm : Host) : jfieldID :=
  (vm.FindClass "java/io/FileDescriptor").bind (fun c => vm.GetFieldID c "descriptor" "I")

def Host.pfdConstructor (vm : Host) : jmethodID :=
  (vm.FindClass "android/os/ParcelFileDescriptor").bind
    (fun c => vm.GetMethodID c "<init>" "(Ljava/io/FileDescriptor;)V")

def Host.updateMethod (vm : Host) : jmethodID :=
  (vm.FindClass "android/graphics/ColorMatrixColorFilter").bind
    (fun c => vm.GetMethodID c "update" "()V")

def Host.matrixField (vm : Host) : jfieldID :=
  (vm.FindClass "android/graphics/ColorMatrixColorFilter").bind
    (fun c => vm.GetFieldID c "mMatrix" "Landroid/graphics/ColorMatrix;")

/-! ## Concrete hosts and states, for evaluating the adapters -/

/-- A process state with two allocated objects: object `1` refers to object `0`
through every reference field, every int field holds `-1`. -/
def JNIEnv.sample : JNIEnv where
  heap :=
    { next := 2
      cls := fun _ => none
      ints := fun _ _ => -1
      refs := fun o _ => if o = 1 then some 0 else none }
  pending := false
  log := []

/-- A host in which everything succeeds: every class is object `5`, a field of
class `c` has identifier `c + 1`, a method `c + 2`, methods return normally
without touching the heap, and `pipe(2)` yields the descriptors `3` and `4`. -/
def Host.friendly : Host where
  GetEnv := fun _ => JNI_OK
  FindClass := fun _ => some 5
  GetFieldID := fun c _ _ => some (c + 1)
  GetMethodID := fun c _ _ => some (c + 2)
  canAllocate := fun _ _ => true
  invoke := fun h _ _ _ => (h, false)
  pipe := fun _ => (0, 3, 4)

/-- As `Host.friendly`, but every Java method and constructor throws. -/
def Host.throwing : Host :=
  { Host.friendly with invoke := fun h _ _ _ => (h, true) }

/-- As `Host.friendly`, but `pipe(2)` fails. -/
def Host.exhausted : Host :=
  { Host.friendly with pipe := fun _ => (-1, 0, 0) }

/-- As `Host.friendly`, but no class is found. -/
def Host.bare : Host :=
  { Host.friendly with FindClass := fun _ => none }

/-- As `Host.friendly`, but `GetEnv` reports `JNI_EDETACHED`. -/
def Host.detached : Host :=
  { Host.friendly with GetEnv := fun _ => -2 }

/-- As `Host.friendly`, but every constructor keeps its first argument in
reference field `0` of the object it initialises. -/
def Host.boxing : Host :=
  { Host.friendly with
    invoke := fun h o _ args =>
      ({ h with refs := fun p f => if p = o ∧ f = 0 then args.headD none else h.refs p f },
        false) }

/-- As `Host.friendly`, but no class has the field that is looked up. -/
def Host.fieldless : Host :=
  { Host.friendly with GetFieldID := fun _ _ _ => none }

/-! ## The lookups, projection by projection -/

theorem JNIEnv.FindClass_fst (vm : Host) (env : JNIEnv) (name : String) :
    (env.FindClass vm name).1 = vm.FindClass name := by
  unfold JNIEnv.FindClass; cases vm.FindClass name <;> rfl

theorem JNIEnv.FindClass_pending (vm : Host) (env : JNIEnv) (name : String) :
    (env.FindClass vm name).2.pending = (env.pending || (vm.FindClass name).isNone) := by
  unfold JNIEnv.FindClass; cases vm.FindClass name <;> simp [JNIEnv.record, JNIEnv.throw]

theorem JNIEnv.GetFieldID_fst (vm : Host) (env : JNIEnv) (clazz : jclass) (name sig : String) :
    (env.GetFieldID vm clazz name sig).1 = clazz.bind (fun c => vm.GetFieldID c name sig) := by
  unfold JNIEnv.GetFieldID; cases clazz.bind (fun c => vm.GetFieldID c name sig) <;> rfl

theorem JNIEnv.GetFieldID_pending (vm : Host) (env : JNIEnv) (clazz : jclass)
    (name sig : String) :
    (env.GetFieldID vm clazz name sig).2.pending =
      (env.pending || (clazz.bind (fun c => vm.GetFieldID c name sig)).isNone) := by
  unfold JNIEnv.GetFieldID
  cases clazz.bind (fun c => vm.GetFieldID c name sig) <;> simp [JNIEnv.record, JNIEnv.throw]

theorem JNIEnv.GetMethodID_fst (vm : Host) (env : JNIEnv) (clazz : jclass) (name sig : String) :
    (env.GetMethodID vm clazz name sig).1 = clazz.bind (fun c => vm.GetMethodID c name sig) := by
  unfold JNIEnv.GetMethodID; cases clazz.bind (fun c => vm.GetMethodID c name sig) <;> rfl

theorem JNIEnv.GetMethodID_pending (vm : Host) (env : JNIEnv) (clazz : jclass)
    (name sig : String) :
    (env.GetMethodID vm clazz name sig).2.pending =
      (env.pending || (clazz.bind (fun c => vm.GetMethodID c name sig)).isNone) := by
  unfold JNIEnv.GetMethodID
  cases clazz.bind (fun c => vm.GetMethodID c name sig) <;> simp [JNIEnv.record, JNIEnv.throw]

theorem isNone_or_bind_isNone {α β : Type} (o : Option α) (f : α → Option β) (b : Bool) :
    ((b || o.isNone) || (o.bind f).isNone) = (b || (o.bind f).isNone) := by
  cases o <;> cases b <;> simp

/-! ## `JNI_OnLoad` -/

theorem Pipe.pipe_OnLoad_err (vm : Host) (g : Pipe.Globals) (env : JNIEnv)
    (h : vm.GetEnv JNI_VERSION_1_6 ≠ JNI_OK) :
    Pipe.JNI_OnLoad vm g env = (JNI_ERR, g, env) := by
  simp [Pipe.JNI_OnLoad, h]

theorem Reflection.reflection_OnLoad_err (vm : Host) (g : Reflection.Globals) (env : JNIEnv)
    (h : vm.GetEnv JNI_VERSION_1_6 ≠ JNI_OK) :
    Reflection.JNI_OnLoad vm g env = (JNI_ERR, g, env) := by
  simp [Reflection.JNI_OnLoad, h]

theorem Pipe.pipe_OnLoad_ok (vm : Host) (g : Pipe.Globals) (env : JNIEnv)
    (h : vm.GetEnv JNI_VERSION_1_6 = JNI_OK) :
    (Pipe.JNI_OnLoad vm g env).1 = JNI_VERSION_1_6 ∧
    (Pipe.JNI_OnLoad vm g env).2.2.pending = false ∧
    (Pipe.JNI_OnLoad vm g env).2.1.pfdClass = vm.FindClass "android/os/ParcelFileDescriptor" ∧
    (Pipe.JNI_OnLoad vm g env).2.1.constructorPfd = vm.pfdConstructor ∧
    (vm.descriptorField = none → (Pipe.JNI_OnLoad vm g env).2.1.fieldDescriptor = none) ∧
    (env.pending = false →
      (Pipe.JNI_OnLoad vm g env).2.1.fieldDescriptor = vm.descriptorField) := by
  simp only [Pipe.JNI_OnLoad, h, Host.pfdConstructor, Host.descriptorField,
    JNIEnv.ExceptionCheck, JNIEnv.ExceptionClear, JNIEnv.NewGlobalRef, JNIEnv.DeleteLocalRef,
    JNIEnv.record, JNIEnv.FindClass_fst, JNIEnv.FindClass_pending, JNIEnv.GetFieldID_fst,
    JNIEnv.GetFieldID_pending, JNIEnv.GetMethodID_fst, JNIEnv.GetMethodID_pending,
    isNone_or_bind_isNone]
  generalize (Option.bind (vm.FindClass "java/io/FileDescriptor") _) = x
  generalize (Option.bind (vm.FindClass "android/os/ParcelFileDescriptor") _) = y
  cases x <;> cases y <;> cases env.pending <;> simp

theorem Reflection.reflection_OnLoad_ok (vm : Host) (g : Reflection.Globals) (env : JNIEnv)
    (h : vm.GetEnv JNI_VERSION_1_6 = JNI_OK) :
    (Reflection.JNI_OnLoad vm g env).1 = JNI_VERSION_1_6 ∧
    (Reflection.JNI_OnLoad vm g env).2.2.pending = false ∧
    (Reflection.JNI_OnLoad vm g env).2.1.matrixFieldId = vm.matrixField ∧
    (vm.updateMethod = none → (Reflection.JNI_OnLoad vm g env).2.1.updateMethodId = none) ∧
    (env.pending = false →
      (Reflection.JNI_OnLoad vm g env).2.1.updateMethodId = vm.updateMethod) := by
  simp only [Reflection.JNI_OnLoad, h, Host.updateMethod, Host.matrixField,
    JNIEnv.ExceptionCheck, JNIEnv.ExceptionClear, JNIEnv.DeleteLocalRef,
    JNIEnv.record, JNIEnv.FindClass_fst, JNIEnv.FindClass_pending, JNIEnv.GetFieldID_fst,
    JNIEnv.GetFieldID_pending, JNIEnv.GetMethodID_fst, JNIEnv.GetMethodID_pending,
    isNone_or_bind_isNone]
  generalize (Option.bind (vm.FindClass "android/graphics/ColorMatrixColorFilter") fun c =>
    vm.GetMethodID c "update" "()V") = x
  generalize (Option.bind (vm.FindClass "android/graphics/ColorMatrixColorFilter") _) = y
  cases x <;> cases y <;> cases env.pending <;> simp

/-! ## The statics are written by `JNI_OnLoad` only -/

theorem Process.call_globals (vm : Host) (p : Process) (c : Call) :
    (p.call vm c).2.pipe = p.pipe ∧ (p.call vm c).2.reflection = p.reflection := by
  cases c <;> exact ⟨rfl, rfl⟩

theorem Process.run_globals (vm : Host) (cs : List Call) (p : Process) :
    (p.run vm cs).pipe = p.pipe ∧ (p.run vm cs).reflection = p.reflection := by
  induction cs generalizing p with
  | nil => exact ⟨rfl, rfl⟩
  | cons c cs ih =>
    have h := Process.call_globals vm p c
    have h2 := ih (p.call vm c).2
    exact ⟨h2.1.trans h.1, h2.2.trans h.2⟩

theorem Process.load_fieldDescriptor (vm : Host) (env : JNIEnv)
    (h : vm.descriptorField = none) : (Process.load vm env).pipe.fieldDescriptor = none := by
  by_cases hok : vm.GetEnv JNI_VERSION_1_6 = JNI_OK
  · exact (Pipe.pipe_OnLoad_ok vm Pipe.Globals.init env hok).2.2.2.2.1 h
  · simp [Process.load, Pipe.pipe_OnLoad_err vm _ env hok, Pipe.Globals.init]

theorem Process.load_constructorPfd (vm : Host) (env : JNIEnv)
    (h : vm.pfdConstructor = none) : (Process.load vm env).pipe.constructorPfd = none := by
  by_cases hok : vm.GetEnv JNI_VERSION_1_6 = JNI_OK
  · exact ((Pipe.pipe_OnLoad_ok vm Pipe.Globals.init env hok).2.2.2.1).trans h
  · simp [Process.load, Pipe.pipe_OnLoad_err vm _ env hok, Pipe.Globals.init]

theorem Process.load_updateMethodId (vm : Host) (env : JNIEnv)
    (h : vm.updateMethod = none) : (Process.load vm env).reflection.updateMethodId = none := by
  by_cases hok : vm.GetEnv JNI_VERSION_1_6 = JNI_OK
  · exact (Reflection.reflection_OnLoad_ok vm Reflection.Globals.init _ hok).2.2.2.1 h
  · simp [Process.load, Reflection.reflection_OnLoad_err vm _ _ hok, Reflection.Globals.init]

theorem Process.load_matrixFieldId (vm : Host) (env : JNIEnv)
    (h : vm.matrixField = none) : (Process.load vm env).reflection.matrixFieldId = none := by
  by_cases hok : vm.GetEnv JNI_VERSION_1_6 = JNI_OK
  · exact ((Reflection.reflection_OnLoad_ok vm Reflection.Globals.init _ hok).2.2.1).trans h
  · simp [Process.load, Reflection.reflection_OnLoad_err vm _ _ hok, Reflection.Globals.init]

/-- An entry point whose handle is `NULL` returns its sentinel and leaves the
process as it found it. -/
theorem Process.call_unresolved (vm : Host) (p : Process) :
    (p.pipe.fieldDescriptor = none →
      ∀ read write, p.call vm (.createPipe read write) = (.bool JNI_FALSE, p)) ∧
    (p.pipe.constructorPfd = none → ∀ fd, p.call vm (.createPfd fd) = (.ref none, p)) ∧
    (p.reflection.updateMethodId = none →
      ∀ object, p.call vm (.update object) = (.bool JNI_FALSE, p)) ∧
    (p.reflection.matrixFieldId = none →
      ∀ object, p.call vm (.getMatrix object) = (.ref none, p)) := by
  refine ⟨?_, ?_, ?_, ?_⟩ <;> intro h <;> intros <;>
    simp [Process.call, Pipe.Java_network_NetworkUtils_createPipe,
      Pipe.Java_network_NetworkUtils_createPfd, Reflection.Java_drawables_BitmapDrawable_update,
      Reflection.Java_drawables_BitmapDrawable_getMatrix, h]

/-! ## The claims -/

/-- C1 (amended): `createPipe` with the descriptor field handle resolved, a
successful `pipe(2)` that stored `(r, w)`, and two distinct wrapper instances:
the call returns `JNI_TRUE`, the descriptor field of `read` is `r` and the
descriptor field of `write` is `w`. -/
theorem createPipe_stores_both_ends (vm : Host) (g : Pipe.Globals) (env : JNIEnv)
    (read write : Obj) (fid : Nat) (rc r w : jint)
    (hfid : g.fieldDescriptor = some fid) (hpipe : vm.pipe env.log = (rc, r, w))
    (hrc : ¬ rc < 0) (hne : read ≠ write) :
    (Pipe.Java_network_NetworkUtils_createPipe vm g env read write).1 = JNI_TRUE ∧
    (Pipe.Java_network_NetworkUtils_createPipe vm g env read write).2.heap.ints read fid = r ∧
    (Pipe.Java_network_NetworkUtils_createPipe vm g env read write).2.heap.ints write fid = w := by
  simp [Pipe.Java_network_NetworkUtils_createPipe, hfid, pipe, hpipe, hrc, JNIEnv.SetIntField,
    JNIEnv.record, Heap.setInt, hne]

theorem createPipe_stores_both_ends_witness :
    (Pipe.Java_network_NetworkUtils_createPipe Host.friendly ⟨some 6, none, none⟩
        JNIEnv.sample 0 1).1 = JNI_TRUE ∧
    (Pipe.Java_network_NetworkUtils_createPipe Host.friendly ⟨some 6, none, none⟩
        JNIEnv.sample 0 1).2.heap.ints 0 6 = 3 ∧
    (Pipe.Java_network_NetworkUtils_createPipe Host.friendly ⟨some 6, none, none⟩
        JNIEnv.sample 0 1).2.heap.ints 1 6 = 4 :=
  createPipe_stores_both_ends Host.friendly ⟨some 6, none, none⟩ JNIEnv.sample 0 1 6 0 3 4
    rfl rfl (by decide) (by decide)

/-- C1 (as stated) fails when the same instance is passed as `read` and as
`write`: the handle is resolved, `pipe(2)` succeeds with `(3, 4)`, the call
returns `JNI_TRUE`, and the descriptor field of the read wrapper is `4`, not
the read end `3`. -/
theorem createPipe_aliased_loses_read_end :
    (⟨some 6, none, none⟩ : Pipe.Globals).fieldDescriptor = some 6 ∧
    Host.friendly.pipe JNIEnv.sample.log = (0, 3, 4) ∧
    (Pipe.Java_network_NetworkUtils_createPipe Host.friendly ⟨some 6, none, none⟩
        JNIEnv.sample 1 1).1 = JNI_TRUE ∧
    (Pipe.Java_network_NetworkUtils_createPipe Host.friendly ⟨some 6, none, none⟩
        JNIEnv.sample 1 1).2.heap.ints 1 6 = 4 ∧
    (Pipe.Java_network_NetworkUtils_createPipe Host.friendly ⟨some 6, none, none⟩
        JNIEnv.sample 1 1).2.heap.ints 1 6 ≠ 3 := by
  decide

/-- C2: `createPipe` with the descriptor field handle resolved and a failing
`pipe(2)` (negative return value): the call returns `JNI_FALSE`, the heap and
the pending-exception flag are as before, and the only call made is the one to
`pipe(2)`. -/
theorem createPipe_pipe_failure (vm : Host) (g : Pipe.Globals) (env : JNIEnv)
    (read write : Obj) (fid : Nat)
    (hfid : g.fieldDescriptor = some fid) (hrc : (vm.pipe env.log).1 < 0) :
    (Pipe.Java_network_NetworkUtils_createPipe vm g env read write).1 = JNI_FALSE ∧
    (Pipe.Java_network_NetworkUtils_createPipe vm g env read write).2.heap = env.heap ∧
    (Pipe.Java_network_NetworkUtils_createPipe vm g env read write).2.pending = env.pending ∧
    (Pipe.Java_network_NetworkUtils_createPipe vm g env read write).2.log =
      env.log ++ [Event.pipe] := by
  simp [Pipe.Java_network_NetworkUtils_createPipe, hfid, pipe, hrc, JNIEnv.record]

theorem createPipe_pipe_failure_witness :
    (Host.exhausted.pipe JNIEnv.sample.log).1 < 0 ∧
    (Pipe.Java_network_NetworkUtils_createPipe Host.exhausted ⟨some 6, none, none⟩
        JNIEnv.sample 0 1).1 = JNI_FALSE ∧
    (Pipe.Java_network_NetworkUtils_createPipe Host.exhausted ⟨some 6, none, none⟩
        JNIEnv.sample 0 1).2.heap = JNIEnv.sample.heap :=
  ⟨by decide,
   (createPipe_pipe_failure Host.exhausted ⟨some 6, none, none⟩ JNIEnv.sample 0 1 6
      rfl (by decide)).1,
   (createPipe_pipe_failure Host.exhausted ⟨some 6, none, none⟩ JNIEnv.sample 0 1 6
      rfl (by decide)).2.1⟩

/-- C3: after both libraries are loaded, an entry point whose handle lookup
failed returns its failure sentinel on every later call, after any sequence
`cs` of entry-point calls, and leaves the whole process (heap, pending flag and
call history) as it was: no call into the runtime or the kernel is made. -/
theorem unresolved_handle_returns_sentinel (vm : Host) (env : JNIEnv) (cs : List Call) :
    (vm.descriptorField = none → ∀ read write,
      ((Process.load vm env).run vm cs).call vm (.createPipe read write) =
        (.bool JNI_FALSE, (Process.load vm env).run vm cs)) ∧
    (vm.pfdConstructor = none → ∀ fd,
      ((Process.load vm env).run vm cs).call vm (.createPfd fd) =
        (.ref none, (Process.load vm env).run vm cs)) ∧
    (vm.updateMethod = none → ∀ object,
      ((Process.load vm env).run vm cs).call vm (.update object) =
        (.bool JNI_FALSE, (Process.load vm env).run vm cs)) ∧
    (vm.matrixField = none → ∀ object,
      ((Process.load vm env).run vm cs).call vm (.getMatrix object) =
        (.ref none, (Process.load vm env).run vm cs)) := by
  have hg := Process.run_globals vm cs (Process.load vm env)
  have hu := Process.call_unresolved vm ((Process.load vm env).run vm cs)
  refine ⟨fun h => hu.1 ?_, fun h => hu.2.1 ?_, fun h => hu.2.2.1 ?_, fun h => hu.2.2.2 ?_⟩
  · rw [hg.1]; exact Process.load_fieldDescriptor vm env h
  · rw [hg.1]; exact Process.load_constructorPfd vm env h
  · rw [hg.2]; exact Process.load_updateMethodId vm env h
  · rw [hg.2]; exact Process.load_matrixFieldId vm env h

theorem unresolved_handle_returns_sentinel_witness :
    Host.bare.descriptorField = none ∧
    ((Process.load Host.bare JNIEnv.sample).run Host.bare [.update 0, .createPfd none]).call
        Host.bare (.createPipe 0 1) =
      (.bool JNI_FALSE,
        (Process.load Host.bare JNIEnv.sample).run Host.bare [.update 0, .createPfd none]) :=
  ⟨rfl,
   (unresolved_handle_returns_sentinel Host.bare JNIEnv.sample
      [.update 0, .createPfd none]).1 rfl 0 1⟩

/-- C4 (amended): `createPfd` after a `JNI_OnLoad` in which the class
`ParcelFileDescriptor` (`c`) and its one-argument constructor (`ctor`) were
resolved: when the instance can be allocated and the constructor returns
normally, the call returns a reference to an object that was not allocated
before the call, allocated as an instance of `c`, on which the constructor
`ctor` ran with the single argument `fd`; the only call into the runtime is
that `NewObject`, and no exception is raised.  So the returned wrapper
references the descriptor object that was supplied: in whichever reference
field the constructor keeps its argument, the returned object holds `fd`
itself. -/
theorem createPfd_constructs (vm : Host) (g0 : Pipe.Globals) (env0 env : JNIEnv)
    (fd : jobject) (c : Obj) (ctor : Nat)
    (hok : vm.GetEnv JNI_VERSION_1_6 = JNI_OK)
    (hcls : vm.FindClass "android/os/ParcelFileDescriptor" = some c)
    (hctor : vm.GetMethodID c "<init>" "(Ljava/io/FileDescriptor;)V" = some ctor)
    (halloc : vm.canAllocate env.heap c = true)
    (hret : (vm.invoke (env.heap.allocate c) env.heap.next ctor [fd]).2 = false) :
    (Pipe.Java_network_NetworkUtils_createPfd vm (Pipe.JNI_OnLoad vm g0 env0).2.1 env fd).1 =
      some env.heap.next ∧
    ¬ env.heap.allocated env.heap.next ∧
    (env.heap.allocate c).allocated env.heap.next ∧
    (env.heap.allocate c).cls env.heap.next = some c ∧
    (Pipe.Java_network_NetworkUtils_createPfd vm (Pipe.JNI_OnLoad vm g0 env0).2.1 env fd).2.heap =
      (vm.invoke (env.heap.allocate c) env.heap.next ctor [fd]).1 ∧
    (Pipe.Java_network_NetworkUtils_createPfd vm (Pipe.JNI_OnLoad vm g0 env0).2.1 env fd).2.log =
      env.log ++ [Event.NewObject (some c) ctor [fd]] ∧
    (Pipe.Java_network_NetworkUtils_createPfd vm (Pipe.JNI_OnLoad vm g0 env0).2.1 env
      fd).2.pending = env.pending ∧
    (∀ field, (∀ h o a, (vm.invoke h o ctor [a]).1.refs o field = a) →
      (Pipe.Java_network_NetworkUtils_createPfd vm (Pipe.JNI_OnLoad vm g0 env0).2.1 env
        fd).2.heap.refs env.heap.next field = fd) := by
  have h := Pipe.pipe_OnLoad_ok vm g0 env0 hok
  have h1 : (Pipe.JNI_OnLoad vm g0 env0).2.1.pfdClass = some c := h.2.2.1.trans hcls
  have h2 : (Pipe.JNI_OnLoad vm g0 env0).2.1.constructorPfd = some ctor := by
    rw [h.2.2.2.1]; simp [Host.pfdConstructor, hcls, hctor]
  have hheap : (Pipe.Java_network_NetworkUtils_createPfd vm (Pipe.JNI_OnLoad vm g0 env0).2.1
      env fd).2.heap = (vm.invoke (env.heap.allocate c) env.heap.next ctor [fd]).1 := by
    simp [Pipe.Java_network_NetworkUtils_createPfd, h1, h2, JNIEnv.NewObject, halloc, hret]
  refine ⟨?_, ?_, ?_, ?_, hheap, ?_, ?_, ?_⟩
  · simp [Pipe.Java_network_NetworkUtils_createPfd, h1, h2, JNIEnv.NewObject, halloc, hret]
  · simp [Heap.allocated]
  · simp [Heap.allocated, Heap.allocate]
  · simp [Heap.allocate]
  · simp [Pipe.Java_network_NetworkUtils_createPfd, h1, h2, JNIEnv.NewObject, halloc, hret,
      JNIEnv.record]
  · simp [Pipe.Java_network_NetworkUtils_createPfd, h1, h2, JNIEnv.NewObject, halloc, hret,
      JNIEnv.record]
  · intro field hstore
    rw [hheap]
    exact hstore (env.heap.allocate c) env.heap.next fd

theorem createPfd_constructs_witness :
    (Pipe.Java_network_NetworkUtils_createPfd Host.boxing
      (Pipe.JNI_OnLoad Host.boxing Pipe.Globals.init JNIEnv.sample).2.1
      JNIEnv.sample (some 0)).1 = some 2 ∧
    (Pipe.Java_network_NetworkUtils_createPfd Host.boxing
      (Pipe.JNI_OnLoad Host.boxing Pipe.Globals.init JNIEnv.sample).2.1
      JNIEnv.sample (some 0)).2.heap.refs 2 0 = some 0 :=
  ⟨(createPfd_constructs Host.boxing Pipe.Globals.init JNIEnv.sample JNIEnv.sample (some 0) 5 7
      rfl rfl rfl rfl rfl).1,
   (createPfd_constructs Host.boxing Pipe.Globals.init JNIEnv.sample JNIEnv.sample (some 0) 5 7
      rfl rfl rfl rfl rfl).2.2.2.2.2.2.2 0 (fun h o a => by simp [Host.boxing])⟩

/-- C4 (as stated) fails when the constructor throws: the constructor handle
was resolved by `JNI_OnLoad`, and `createPfd` returns `NULL`, not a newly
constructed object. -/
theorem createPfd_null_when_constructor_throws :
    (Pipe.JNI_OnLoad Host.throwing Pipe.Globals.init JNIEnv.sample).2.1.constructorPfd =
      some 7 ∧
    (Pipe.Java_network_NetworkUtils_createPfd Host.throwing
      (Pipe.JNI_OnLoad Host.throwing Pipe.Globals.init JNIEnv.sample).2.1
      JNIEnv.sample (some 0)).1 = none := by
  decide

/-- C5: `getMatrix` with the matrix field handle resolved to `fid` returns
exactly the reference stored in field `fid` of the instance and leaves the heap
(so the instance) and the pending flag unchanged; with the handle unresolved it
returns `NULL` and changes nothing. -/
theorem getMatrix_returns_stored_reference (g : Reflection.Globals) (env : JNIEnv)
    (object : Obj) :
    (∀ fid, g.matrixFieldId = some fid →
      (Reflection.Java_drawables_BitmapDrawable_getMatrix g env object).1 =
        env.heap.refs object fid ∧
      (Reflection.Java_drawables_BitmapDrawable_getMatrix g env object).2.heap = env.heap ∧
      (Reflection.Java_drawables_BitmapDrawable_getMatrix g env object).2.pending =
        env.pending) ∧
    (g.matrixFieldId = none →
      Reflection.Java_drawables_BitmapDrawable_getMatrix g env object = (none, env)) := by
  refine ⟨fun fid h => ?_, fun h => ?_⟩ <;>
    simp [Reflection.Java_drawables_BitmapDrawable_getMatrix, h, JNIEnv.GetObjectField,
      JNIEnv.record]

theorem getMatrix_returns_stored_reference_witness :
    (Reflection.Java_drawables_BitmapDrawable_getMatrix ⟨none, some 6⟩ JNIEnv.sample 1).1 =
      some 0 ∧
    Reflection.Java_drawables_BitmapDrawable_getMatrix ⟨none, none⟩ JNIEnv.sample 1 =
      (none, JNIEnv.sample) :=
  ⟨((getMatrix_returns_stored_reference ⟨none, some 6⟩ JNIEnv.sample 1).1 6 rfl).1,
   (getMatrix_returns_stored_reference ⟨none, none⟩ JNIEnv.sample 1).2 rfl⟩

/-- C6: `update` with the method handle resolved to `mid` makes exactly one
call into the runtime, `CallVoidMethod` of `mid` on the supplied instance, which
runs that method on it with no argument, and returns `JNI_TRUE`; with the handle
unresolved it returns `JNI_FALSE` and changes nothing. -/
theorem update_invokes_once (vm : Host) (g : Reflection.Globals) (env : JNIEnv)
    (object : Obj) :
    (∀ mid, g.updateMethodId = some mid →
      (Reflection.Java_drawables_BitmapDrawable_update vm g env object).1 = JNI_TRUE ∧
      (Reflection.Java_drawables_BitmapDrawable_update vm g env object).2.log =
        env.log ++ [Event.CallVoidMethod object mid] ∧
      (Reflection.Java_drawables_BitmapDrawable_update vm g env object).2.heap =
        (vm.invoke env.heap object mid []).1) ∧
    (g.updateMethodId = none →
      Reflection.Java_drawables_BitmapDrawable_update vm g env object = (JNI_FALSE, env)) := by
  refine ⟨fun mid h => ?_, fun h => ?_⟩ <;>
    simp [Reflection.Java_drawables_BitmapDrawable_update, h, JNIEnv.CallVoidMethod,
      JNIEnv.record]

theorem update_invokes_once_witness :
    (Reflection.Java_drawables_BitmapDrawable_update Host.friendly ⟨some 7, none⟩
      JNIEnv.sample 1).2.log = JNIEnv.sample.log ++ [Event.CallVoidMethod 1 7] ∧
    Reflection.Java_drawables_BitmapDrawable_update Host.friendly ⟨none, none⟩ JNIEnv.sample 1 =
      (JNI_FALSE, JNIEnv.sample) :=
  ⟨((update_invokes_once Host.friendly ⟨some 7, none⟩ JNIEnv.sample 1).1 7 rfl).2.1,
   (update_invokes_once Host.friendly ⟨none, none⟩ JNIEnv.sample 1).2 rfl⟩

/-- C7: when `GetEnv` succeeds, whatever the lookups give (for every host):
no exception is pending when `JNI_OnLoad` returns; a handle whose class or
member lookup failed is `NULL`; a handle whose lookup succeeded holds the value
found.  For the first handle of each adapter the last part uses that the
runtime enters `JNI_OnLoad` with no exception pending; the later lookups start
from the cleared flag. -/
theorem JNI_OnLoad_caches_lookups (vm : Host) (gp : Pipe.Globals) (gr : Reflection.Globals)
    (env : JNIEnv) (hok : vm.GetEnv JNI_VERSION_1_6 = JNI_OK) :
    ((Pipe.JNI_OnLoad vm gp env).2.2.pending = false ∧
      (Pipe.JNI_OnLoad vm gp env).2.1.pfdClass =
        vm.FindClass "android/os/ParcelFileDescriptor" ∧
      (Pipe.JNI_OnLoad vm gp env).2.1.constructorPfd = vm.pfdConstructor ∧
      (vm.descriptorField = none → (Pipe.JNI_OnLoad vm gp env).2.1.fieldDescriptor = none) ∧
      (env.pending = false →
        (Pipe.JNI_OnLoad vm gp env).2.1.fieldDescriptor = vm.descriptorField)) ∧
    ((Reflection.JNI_OnLoad vm gr env).2.2.pending = false ∧
      (Reflection.JNI_OnLoad vm gr env).2.1.matrixFieldId = vm.matrixField ∧
      (vm.updateMethod = none → (Reflection.JNI_OnLoad vm gr env).2.1.updateMethodId = none) ∧
      (env.pending = false →
        (Reflection.JNI_OnLoad vm gr env).2.1.updateMethodId = vm.updateMethod)) := by
  have hp := Pipe.pipe_OnLoad_ok vm gp env hok
  have hr := Reflection.reflection_OnLoad_ok vm gr env hok
  exact ⟨hp.2, hr.2⟩

theorem JNI_OnLoad_caches_lookups_witness :
    ((Pipe.JNI_OnLoad Host.fieldless Pipe.Globals.init JNIEnv.sample).2.2.pending = false ∧
      (Pipe.JNI_OnLoad Host.fieldless Pipe.Globals.init JNIEnv.sample).2.1.pfdClass = some 5 ∧
      (Pipe.JNI_OnLoad Host.fieldless Pipe.Globals.init JNIEnv.sample).2.1.constructorPfd =
        some 7 ∧
      (Pipe.JNI_OnLoad Host.fieldless Pipe.Globals.init JNIEnv.sample).2.1.fieldDescriptor =
        none) ∧
    ((Reflection.JNI_OnLoad Host.fieldless Reflection.Globals.init
        JNIEnv.sample).2.2.pending = false ∧
      (Reflection.JNI_OnLoad Host.fieldless Reflection.Globals.init
        JNIEnv.sample).2.1.matrixFieldId = none ∧
      (Reflection.JNI_OnLoad Host.fieldless Reflection.Globals.init
        JNIEnv.sample).2.1.updateMethodId = some 7) :=
  ⟨⟨(JNI_OnLoad_caches_lookups Host.fieldless Pipe.Globals.init Reflection.Globals.init
        JNIEnv.sample rfl).1.1,
    (JNI_OnLoad_caches_lookups Host.fieldless Pipe.Globals.init Reflection.Globals.init
        JNIEnv.sample rfl).1.2.1,
    (JNI_OnLoad_caches_lookups Host.fieldless Pipe.Globals.init Reflection.Globals.init
        JNIEnv.sample rfl).1.2.2.1,
    (JNI_OnLoad_caches_lookups Host.fieldless Pipe.Globals.init Reflection.Globals.init
        JNIEnv.sample rfl).1.2.2.2.1 rfl⟩,
   ⟨(JNI_OnLoad_caches_lookups Host.fieldless Pipe.Globals.init Reflection.Globals.init
        JNIEnv.sample rfl).2.1,
    (JNI_OnLoad_caches_lookups Host.fieldless Pipe.Globals.init Reflection.Globals.init
        JNIEnv.sample rfl).2.2.1,
    (JNI_OnLoad_caches_lookups Host.fieldless Pipe.Globals.init Reflection.Globals.init
        JNIEnv.sample rfl).2.2.2.2 rfl⟩⟩

/-- C8 (amended): for a call made with no exception pending, `createPipe` and
`getMatrix` always return with no exception pending, and so do `update` and
`createPfd` when their handle is unresolved; with the handle resolved, `update`
returns `JNI_TRUE` and an exception is pending on return exactly when the
invoked method threw, and `createPfd` returns with an exception pending exactly
when it returns `NULL`. -/
theorem entry_points_pending_on_return (vm : Host) (gp : Pipe.Globals)
    (gr : Reflection.Globals) (env : JNIEnv) (hclean : env.pending = false) :
    (∀ read write,
      (Pipe.Java_network_NetworkUtils_createPipe vm gp env read write).2.pending = false) ∧
    (∀ object,
      (Reflection.Java_drawables_BitmapDrawable_getMatrix gr env object).2.pending = false) ∧
    (∀ object, gr.updateMethodId = none →
      (Reflection.Java_drawables_BitmapDrawable_update vm gr env object).2.pending = false) ∧
    (∀ fd, gp.constructorPfd = none →
      (Pipe.Java_network_NetworkUtils_createPfd vm gp env fd).2.pending = false) ∧
    (∀ object mid, gr.updateMethodId = some mid →
      (Reflection.Java_drawables_BitmapDrawable_update vm gr env object).1 = JNI_TRUE ∧
      (Reflection.Java_drawables_BitmapDrawable_update vm gr env object).2.pending =
        (vm.invoke env.heap object mid []).2) ∧
    (∀ fd ctor, gp.constructorPfd = some ctor →
      ((Pipe.Java_network_NetworkUtils_createPfd vm gp env fd).2.pending = true ↔
        (Pipe.Java_network_NetworkUtils_createPfd vm gp env fd).1 = none)) := by
  refine ⟨fun read write => ?_, fun object => ?_, fun object h => ?_, fun fd h => ?_,
    fun object mid h => ?_, fun fd ctor h => ?_⟩
  · unfold Pipe.Java_network_NetworkUtils_createPipe
    cases gp.fieldDescriptor with
    | none => simpa using hclean
    | some fid =>
      by_cases hrc : (vm.pipe env.log).1 < 0 <;>
        simp [pipe, hrc, JNIEnv.SetIntField, JNIEnv.record, hclean]
  · unfold Reflection.Java_drawables_BitmapDrawable_getMatrix
    cases gr.matrixFieldId <;> simp [JNIEnv.GetObjectField, JNIEnv.record, hclean]
  · simp [Reflection.Java_drawables_BitmapDrawable_update, h, hclean]
  · simp [Pipe.Java_network_NetworkUtils_createPfd, h, hclean]
  · simp [Reflection.Java_drawables_BitmapDrawable_update, h, JNIEnv.CallVoidMethod,
      JNIEnv.record, hclean]
  · simp only [Pipe.Java_network_NetworkUtils_createPfd, h, JNIEnv.NewObject]
    cases gp.pfdClass with
    | none => simp [JNIEnv.throw]
    | some c =>
      by_cases ha : vm.canAllocate env.heap c = true
      · by_cases ht : (vm.invoke (env.heap.allocate c) env.heap.next ctor [fd]).2 = true <;>
          simp [ha, ht, JNIEnv.record, hclean]
      · simp [ha, JNIEnv.throw]

theorem entry_points_pending_on_return_witness :
    (Pipe.Java_network_NetworkUtils_createPipe Host.friendly ⟨some 6, some 7, some 5⟩
      JNIEnv.sample 0 1).2.pending = false ∧
    ((Reflection.Java_drawables_BitmapDrawable_update Host.throwing ⟨some 7, some 6⟩
        JNIEnv.sample 1).1 = JNI_TRUE ∧
      (Reflection.Java_drawables_BitmapDrawable_update Host.throwing ⟨some 7, some 6⟩
        JNIEnv.sample 1).2.pending = (Host.throwing.invoke JNIEnv.sample.heap 1 7 []).2) :=
  ⟨(entry_points_pending_on_return Host.friendly ⟨some 6, some 7, some 5⟩ ⟨some 7, some 6⟩
      JNIEnv.sample rfl).1 0 1,
   (entry_points_pending_on_return Host.throwing ⟨some 6, some 7, some 5⟩ ⟨some 7, some 6⟩
      JNIEnv.sample rfl).2.2.2.2.1 1 7 rfl⟩

/-- C8 (as stated) fails when the invoked update method throws: the call is
made with no exception pending, `update` returns `JNI_TRUE`, and an exception
is pending when it returns. -/
theorem update_returns_with_exception_pending :
    JNIEnv.sample.pending = false ∧
    (Reflection.Java_drawables_BitmapDrawable_update Host.throwing ⟨some 7, some 6⟩
      JNIEnv.sample 1).1 = JNI_TRUE ∧
    (Reflection.Java_drawables_BitmapDrawable_update Host.throwing ⟨some 7, some 6⟩
      JNIEnv.sample 1).2.pending = true := by
  decide

/-- C10: in both adapters `JNI_OnLoad` returns `JNI_ERR` exactly when `GetEnv`
does not return `JNI_OK`; in that case it changes neither the statics nor the
runtime state (no lookup is made), so that after loading every handle is
`NULL` and every entry point returns its failure sentinel, changing nothing,
after any sequence of calls; otherwise it returns `JNI_VERSION_1_6`, whatever
the lookups give. -/
theorem JNI_OnLoad_status (vm : Host) (gp : Pipe.Globals) (gr : Reflection.Globals)
    (env : JNIEnv) :
    ((Pipe.JNI_OnLoad vm gp env).1 = JNI_ERR ↔ vm.GetEnv JNI_VERSION_1_6 ≠ JNI_OK) ∧
    ((Reflection.JNI_OnLoad vm gr env).1 = JNI_ERR ↔ vm.GetEnv JNI_VERSION_1_6 ≠ JNI_OK) ∧
    (vm.GetEnv JNI_VERSION_1_6 ≠ JNI_OK →
      Pipe.JNI_OnLoad vm gp env = (JNI_ERR, gp, env) ∧
      Reflection.JNI_OnLoad vm gr env = (JNI_ERR, gr, env) ∧
      Process.load vm env = ⟨⟨none, none, none⟩, ⟨none, none⟩, env⟩ ∧
      ∀ cs c, ((Process.load vm env).run vm cs).call vm c =
        (c.sentinel, (Process.load vm env).run vm cs)) ∧
    (vm.GetEnv JNI_VERSION_1_6 = JNI_OK →
      (Pipe.JNI_OnLoad vm gp env).1 = JNI_VERSION_1_6 ∧
      (Reflection.JNI_OnLoad vm gr env).1 = JNI_VERSION_1_6) := by
  have hload : vm.GetEnv JNI_VERSION_1_6 ≠ JNI_OK →
      Process.load vm env = ⟨⟨none, none, none⟩, ⟨none, none⟩, env⟩ := by
    intro h
    simp [Process.load, Pipe.pipe_OnLoad_err vm _ _ h, Reflection.reflection_OnLoad_err vm _ _ h,
      Pipe.Globals.init, Reflection.Globals.init]
  refine ⟨?_, ?_, fun h => ⟨Pipe.pipe_OnLoad_err vm gp env h,
    Reflection.reflection_OnLoad_err vm gr env h, hload h, fun cs c => ?_⟩,
    fun h => ⟨(Pipe.pipe_OnLoad_ok vm gp env h).1, (Reflection.reflection_OnLoad_ok vm gr env h).1⟩⟩
  · by_cases h : vm.GetEnv JNI_VERSION_1_6 = JNI_OK
    · rw [(Pipe.pipe_OnLoad_ok vm gp env h).1]
      exact ⟨fun hh => absurd hh (by decide), fun hh => absurd h hh⟩
    · simp [Pipe.pipe_OnLoad_err vm gp env h, h]
  · by_cases h : vm.GetEnv JNI_VERSION_1_6 = JNI_OK
    · rw [(Reflection.reflection_OnLoad_ok vm gr env h).1]
      exact ⟨fun hh => absurd hh (by decide), fun hh => absurd h hh⟩
    · simp [Reflection.reflection_OnLoad_err vm gr env h, h]
  · have hg := Process.run_globals vm cs (Process.load vm env)
    have hu := Process.call_unresolved vm ((Process.load vm env).run vm cs)
    have hl := hload h
    cases c with
    | createPipe read write => exact hu.1 (by rw [hg.1, hl]) read write
    | createPfd fd => exact hu.2.1 (by rw [hg.1, hl]) fd
    | update object => exact hu.2.2.1 (by rw [hg.2, hl]) object
    | getMatrix object => exact hu.2.2.2 (by rw [hg.2, hl]) object

theorem JNI_OnLoad_status_witness :
    (Pipe.JNI_OnLoad Host.detached Pipe.Globals.init JNIEnv.sample =
        (JNI_ERR, Pipe.Globals.init, JNIEnv.sample) ∧
      Reflection.JNI_OnLoad Host.detached Reflection.Globals.init JNIEnv.sample =
        (JNI_ERR, Reflection.Globals.init, JNIEnv.sample)) ∧
    ((Pipe.JNI_OnLoad Host.bare Pipe.Globals.init JNIEnv.sample).1 = JNI_VERSION_1_6 ∧
      (Reflection.JNI_OnLoad Host.bare Reflection.Globals.init JNIEnv.sample).1 =
        JNI_VERSION_1_6) :=
  ⟨⟨((JNI_OnLoad_status Host.detached Pipe.Globals.init Reflection.Globals.init
        JNIEnv.sample).2.2.1 (by decide)).1,
    ((JNI_OnLoad_status Host.detached Pipe.Globals.init Reflection.Globals.init
        JNIEnv.sample).2.2.1 (by decide)).2.1⟩,
   (JNI_OnLoad_status Host.bare Pipe.Globals.init Reflection.Globals.init
      JNIEnv.sample).2.2.2 rfl⟩

end AndroidLibs
